import Mathlib

/-!
Verification development for the RAG chatbot backend (api-server).

The Python sources under `app/` are shallowly embedded below:
pure computations become Lean functions over `List`/`String`/`ℝ`;
Python dicts returned to callers become `PyVal` values; the mutable
per-session conversation map becomes an association list threaded
through the functions; remote calls (Bedrock invoke, embedding
requests, `random.sample`, `json.loads`) become oracle parameters,
since their outcomes are decided outside the embedded code.
Floating-point arithmetic is modelled over the reals, ignoring rounding.
-/

/-- A JSON-like Python value, used for the dictionaries the service
returns to its callers.  Key order is significant, as in Python dicts. -/
inductive PyVal where
  | str (s : String)
  | list (xs : List PyVal)
  | dict (kvs : List (String × PyVal))
deriving Repr

/-- One document chunk, as built in `document_store.py` lines 168-173:
every chunk created at ingestion carries all four keys. -/
structure Doc where
  content : String
  source : String
  file : String
  page : Nat
deriving Repr, DecidableEq

/-- State of `document_store.py`: the in-memory store — the chunk list
`self.documents` and the parallel vector list `self.embeddings`. -/
structure DocumentStore where
  documents : List Doc
  embeddings : List (List ℝ)

/-- Sum of squares `sum(a * a for a in vec)` used for the magnitudes in
`_cosine_similarity` (document_store.py lines 276-277). -/
def sumSq (v : List ℝ) : ℝ :=
  (v.map (fun a => a * a)).sum

/-- Truncation step of `_cosine_similarity` (lines 268-273): when the two vectors have
different lengths, both are cut to the shorter length before comparing. -/
def truncMin (vec1 vec2 : List ℝ) : List ℝ × List ℝ :=
  if vec1.length ≠ vec2.length then
    let minLen := min vec1.length vec2.length
    (vec1.take minLen, vec2.take minLen)
  else
    (vec1, vec2)

open Classical in
/-- Embedding of `DocumentStore._cosine_similarity` (document_store.py lines 255-285):
`dot(a,b) / (|a| * |b|)` on the (possibly truncated) vectors, with the
result defined as `0` when the product of magnitudes is `0`.
`x ** 0.5` on the nonnegative sum of squares is `Real.sqrt`. -/
noncomputable def cosineSimilarity (vec1 vec2 : List ℝ) : ℝ :=
  let p := truncMin vec1 vec2
  let dotProduct := (List.zipWith (· * ·) p.1 p.2).sum
  let magnitude1 := Real.sqrt (sumSq p.1)
  let magnitude2 := Real.sqrt (sumSq p.2)
  if magnitude1 * magnitude2 = 0 then 0
  else dotProduct / (magnitude1 * magnitude2)

/-- Embedding of `DocumentStore.store_embeddings` (document_store.py lines 195-211):
under the store lock, if the incoming embedding count differs from the
chunk count, both lists are cut to the smaller length; then the
embedding list is replaced. -/
def DocumentStore.store_embeddings (s : DocumentStore)
    (embeddings : List (List ℝ)) : DocumentStore :=
  if embeddings.length ≠ s.documents.length then
    let minLen := min embeddings.length s.documents.length
    { documents := s.documents.take minLen, embeddings := embeddings.take minLen }
  else
    { s with embeddings := embeddings }

/-- Python's `l[:k]` for an `int` bound `k`: a nonnegative bound keeps the
first `k` elements; a negative bound keeps all but the last `-k`. -/
def pySliceTo {α : Type} (l : List α) (k : Int) : List α :=
  if 0 ≤ k then l.take k.toNat
  else l.take (l.length - min (-k).toNat l.length)

open Classical in
/-- Embedding of `DocumentStore.search_similar` (document_store.py lines 213-253).
Empty store or empty query gives `[]`; otherwise ranks every stored
embedding by cosine similarity to the query, sorts the index list in
descending similarity (Python `sorted(..., reverse=True)`, a stable
sort) and keeps the slice `[:min(top_k, n)]` — Python slice semantics,
hence `pySliceTo`.  Indexing `self.documents[i]` raises `IndexError` if
a ranked index falls outside the chunk list; the surrounding
`try/except` then returns `[]`. -/
noncomputable def DocumentStore.search_similar (s : DocumentStore)
    (query_embedding : List ℝ) (top_k : Int) : List Doc :=
  if s.embeddings = [] ∨ s.documents = [] then []
  else if query_embedding = [] then []
  else
    let similarities := s.embeddings.map (fun e => cosineSimilarity query_embedding e)
    if similarities = [] then []
    else
      let topK := min top_k (similarities.length : Int)
      let sortedIdx := (List.range similarities.length).mergeSort
        (fun i j => decide (similarities.getD j 0 ≤ similarities.getD i 0))
      let topIndices := pySliceTo sortedIdx topK
      if topIndices.all (fun i => decide (i < s.documents.length)) then
        topIndices.map (fun i => s.documents.getD i ⟨"", "", "", 0⟩)
      else []

/-- Python's `needle in hay` substring test for the non-empty literal
needles used by the service (`splitOn` yields more than one piece
exactly when the needle occurs). -/
def strContains (hay needle : String) : Bool :=
  (hay.splitOn needle).length != 1

/-- Python's `str.strip()`: drop whitespace from both ends (defined over
the character list so that it evaluates by kernel reduction). -/
def pyStrip (s : String) : String :=
  ⟨((s.data.dropWhile Char.isWhitespace).reverse.dropWhile
      Char.isWhitespace).reverse⟩

/-- Python's `str.startswith(pre)`. -/
def pyStartsWith (s pre : String) : Bool :=
  pre.data.isPrefixOf s.data

/-- Python's `str.endswith(suf)`. -/
def pyEndsWith (s suf : String) : Bool :=
  suf.data.isSuffixOf s.data

/-! ### Retriever (retriever.py) -/

/-- State of `retriever.py`: the wrapped store, the chunk snapshot taken at
construction (line 33), and the `self.is_embedding_initialized` flag. -/
structure RetrieverState where
  document_store : DocumentStore
  documents : List Doc
  initDone : Bool

/-- Embedding of `Retriever._initialize_embeddings` (retriever.py lines 47-87), with
the outcome of the remote `embed_documents` call supplied as an oracle
(`Except.error` = the call raised).  Returns the updated state and
whether the method raised `RetrieverError`:
no cached documents → early return (lines 49-51);
embed call raised → flag forced false, error re-raised (lines 84-87);
empty embedding list → early return, flag untouched (lines 69-71);
otherwise store the embeddings and set the flag (lines 77-82). -/
def initEmbeddingsStep (rs : RetrieverState)
    (embedDocsResult : Except Unit (List (List ℝ))) : RetrieverState × Bool :=
  if rs.documents.isEmpty then (rs, false)
  else
    match embedDocsResult with
    | .error _ => ({ rs with initDone := false }, true)
    | .ok embs =>
        if embs.isEmpty then (rs, false)
        else
          ({ rs with document_store := rs.document_store.store_embeddings embs,
                     initDone := true }, false)

/-- Lines 109-117 of retriever.py: when the embedding flag is down and
`retry_init` is set, attempt `_initialize_embeddings` once (its raise is
caught at line 115); the state after that attempt is what the rest of
`retrieve` operates on. -/
def retrieveAfterInit (rs : RetrieverState)
    (embedDocsResult : Except Unit (List (List ℝ)))
    (retry_init : Bool) : RetrieverState :=
  if ¬rs.initDone ∧ retry_init then (initEmbeddingsStep rs embedDocsResult).1
  else rs

open Classical in
/-- Embedding of `Retriever.retrieve` (retriever.py lines 89-160).  Oracles:
`embedDocsResult` feeds the one re-initialization attempt,
`embedQueryResult` is the outcome of `embed_query` (`Except.error` = it
raised), and `sampler` stands for `random.sample` (the code only calls
it with a count between 0 and the list length; its behaviour elsewhere
is unconstrained).  Blank query → `[]`; uninitialized embeddings →
retry once, then fall back to a random sample of the store's chunks;
initialized → embed the query and run the similarity search, falling
back to a random sample (or `[]` when the store is empty) if the
embed-and-search path raises. -/
noncomputable def Retriever.retrieve (rs : RetrieverState)
    (embedDocsResult : Except Unit (List (List ℝ)))
    (embedQueryResult : Except Unit (List ℝ))
    (sampler : List Doc → Nat → List Doc)
    (query : String) (top_k : Int := 3) (retry_init : Bool := true) : List Doc :=
  if pyStrip query = "" then []
  else
    let afterInit := retrieveAfterInit rs embedDocsResult retry_init
    if ¬afterInit.initDone then
      let docs := afterInit.document_store.documents
      if ¬docs.isEmpty then
        sampler docs (min top_k (docs.length : Int)).toNat
      else []
    else
      match embedQueryResult with
      | .ok query_embedding =>
          afterInit.document_store.search_similar query_embedding top_k
      | .error _ =>
          let docs := afterInit.document_store.documents
          if ¬docs.isEmpty then
            sampler docs (min top_k (docs.length : Int)).toNat
          else []

/-! ### LLM adapter (bedrock_client.py) -/

/-- One turn of conversation history.  Turns built by the service always
carry both a role and a content value. -/
structure Turn where
  role : String
  content : PyVal

/-- Outcome of one `bedrock_runtime.invoke_model` call, as seen by
`generate_response` after body parsing: success with the extracted text,
a `ClientError` with its error code and message, a `ConnectionError`,
or any other exception. -/
inductive InvokeOutcome where
  | success (text : String)
  | clientError (code msg : String)
  | connectionError (msg : String)
  | otherError (msg : String)

/-- Result of `generate_response`: the returned string, or a raised
`BedrockClientError`. -/
inductive GenResult where
  | ok (s : String)
  | raised (msg : String)
deriving DecidableEq

/-- Configuration fields of `BedrockClient` relevant to the retry loop
(bedrock_client.py lines 42-60; `max_retries` is always 2 there). -/
structure BedrockConfig where
  model_id : String
  fallback_model_id : String
  max_retries : Nat

/-- The retryable `ClientError` codes (bedrock_client.py line 241). -/
def retryableCodes : List String :=
  ["ThrottlingException", "ServiceUnavailableException", "ModelNotReadyException"]

/-- The fixed degraded-service reply after the retry loop exhausts
(bedrock_client.py lines 300-306): one message when the history is
non-empty (its last turn always has a `content` key here), another when
it is empty. -/
def degradedMessage (conversation_history : List Turn) : String :=
  if ¬conversation_history.isEmpty then
    "죄송합니다. 현재 응답을 생성할 수 없습니다. 질문을 다시 작성해 주시거나 나중에 다시 시도해 주세요."
  else
    "죄송합니다. 서비스에 일시적인 문제가 발생했습니다. 잠시 후 다시 시도해 주세요."

/-- The `while retry_attempt <= self.max_retries` loop of
`generate_response` (bedrock_client.py lines 157-306).  `inv` gives the
outcome of the `callIdx`-th remote invocation; `jsonPost` abstracts the
defensive JSON re-formatting of a successful response (lines 183-230, a
total function: every exception inside it is caught).  On a retryable
`ClientError` or any error class: switch once to the fallback model if
it is distinct and untried, else back off and retry; a non-retryable
`ClientError` after the fallback raises `BedrockClientError`; a generic
exception with no retries left breaks out to the degraded message. -/
def genLoop (cfg : BedrockConfig) (inv : Nat → InvokeOutcome)
    (jsonPost : String → String) (conversation_history : List Turn)
    (callIdx retry_attempt : Nat) (use_model_id : String)
    (tried_fallback : Bool) : GenResult :=
  if h : retry_attempt ≤ cfg.max_retries then
    match inv callIdx with
    | .success text => .ok (jsonPost text)
    | .clientError code msg =>
        if code ∈ retryableCodes then
          if hf : ¬tried_fallback ∧ use_model_id ≠ cfg.fallback_model_id then
            genLoop cfg inv jsonPost conversation_history (callIdx + 1)
              retry_attempt cfg.fallback_model_id true
          else
            genLoop cfg inv jsonPost conversation_history (callIdx + 1)
              (retry_attempt + 1) use_model_id tried_fallback
        else
          if hf : ¬tried_fallback ∧ use_model_id ≠ cfg.fallback_model_id then
            genLoop cfg inv jsonPost conversation_history (callIdx + 1)
              retry_attempt cfg.fallback_model_id true
          else
            .raised ("Bedrock API 오류: " ++ msg)
    | .connectionError _ =>
        if hf : ¬tried_fallback ∧ use_model_id ≠ cfg.fallback_model_id then
          genLoop cfg inv jsonPost conversation_history (callIdx + 1)
            retry_attempt cfg.fallback_model_id true
        else
          genLoop cfg inv jsonPost conversation_history (callIdx + 1)
            (retry_attempt + 1) use_model_id tried_fallback
    | .otherError _ =>
        if hf : ¬tried_fallback ∧ use_model_id ≠ cfg.fallback_model_id then
          genLoop cfg inv jsonPost conversation_history (callIdx + 1)
            retry_attempt cfg.fallback_model_id true
        else if retry_attempt < cfg.max_retries then
          genLoop cfg inv jsonPost conversation_history (callIdx + 1)
            (retry_attempt + 1) use_model_id tried_fallback
        else
          .ok (degradedMessage conversation_history)
  else
    .ok (degradedMessage conversation_history)
termination_by
  2 * (cfg.max_retries + 1 - retry_attempt) + (if tried_fallback then 0 else 1)
decreasing_by
  all_goals cases tried_fallback <;> simp_all <;> omega

/-- Embedding of `BedrockClient.generate_response` (bedrock_client.py lines 125-306):
a missing Bedrock client short-circuits to a fixed apology; otherwise
the retry loop starts on the primary model with no retries used. -/
def BedrockClient.generate_response (cfg : BedrockConfig)
    (inv : Nat → InvokeOutcome) (jsonPost : String → String)
    (bedrock_runtime_available : Bool)
    (conversation_history : List Turn) : GenResult :=
  if ¬bedrock_runtime_available then
    .ok "죄송합니다. 현재 서비스에 일시적인 문제가 발생했습니다. 잠시 후 다시 시도해 주세요."
  else
    genLoop cfg inv jsonPost conversation_history 0 0 cfg.model_id false

/-! ### Conversation orchestrator (chat_service.py) -/

/-- Lookup in the per-session conversation map (a Python dict in
insertion order, embedded as an association list with unique keys). -/
def lookupSession : List (String × List Turn) → String → Option (List Turn)
  | [], _ => none
  | (k, v) :: rest, sid => if k = sid then some v else lookupSession rest sid

/-- Assignment `conversations[sid] = h`: replace in place when the key exists,
append a new entry otherwise. -/
def setSession : List (String × List Turn) → String → List Turn →
    List (String × List Turn)
  | [], sid, h => [(sid, h)]
  | (k, v) :: rest, sid, h =>
      if k = sid then (sid, h) :: rest else (k, v) :: setSession rest sid h

/-- Append `conversations[sid].append(t)`; the service only appends to
sessions it has just ensured exist. -/
def appendTurn (cs : List (String × List Turn)) (sid : String)
    (t : Turn) : List (String × List Turn) :=
  setSession cs sid ((lookupSession cs sid).getD [] ++ [t])

/-- The mutable state of `ChatService`: the per-session history map.
(The cost tracker is pure bookkeeping and logging; it never raises and
its state never influences a reply, so it is not modelled.) -/
structure ChatState where
  conversations : List (String × List Turn)

/-- Embedding of `ChatService.reset_conversation` (chat_service.py lines 508-524):
clears the history of a known session; unknown sessions are untouched. -/
def ChatService.reset_conversation (st : ChatState)
    (session_id : String) : ChatState :=
  if (lookupSession st.conversations session_id).isSome then
    ⟨setSession st.conversations session_id []⟩
  else st

/-- Token usage dictionaries passed around by `chat_service.py`. -/
structure TokenUsage where
  input_tokens : Nat
  output_tokens : Nat
  model_id : String

/-- The methods defined by `class Retriever` in retriever.py (its `def`
statements).  Python resolves `self.retriever.<name>` against these;
any other name raises `AttributeError`. -/
def retrieverMethodNames : List String :=
  ["__init__", "_initialize_embeddings", "retrieve"]

/-- The document-retrieval attempt of `process_message` (chat_service.py
lines 121-135): it calls `self.retriever.retrieve_with_usage`, a name
the `Retriever` class does not define, so the lookup raises
`AttributeError`; the surrounding `except` catches it, leaving
`relevant_docs = []` and the initial usage dictionary. -/
def retrievalStep (usage0 : TokenUsage) : List Doc × TokenUsage :=
  if h : "retrieve_with_usage" ∈ retrieverMethodNames then
    absurd h (by decide)
  else
    ([], usage0)

/-- The blank-message reply of `process_message` (chat_service.py
line 105), returned under the key `"response"`. -/
def emptyMessageReply : String := "메시지가 비어 있습니다. 질문을 입력해 주세요."

/-- The fixed fallback apology of the top-level error handler
(chat_service.py line 285). -/
def fallback_response : String := "죄송합니다. 요청을 처리하는 중에 문제가 발생했습니다."

/-- Lookup in a parsed JSON object / returned dictionary. -/
def dictGet : List (String × PyVal) → String → Option PyVal
  | [], _ => none
  | (k, v) :: rest, key => if k = key then some v else dictGet rest key

/-- Python `d[key] = v` on a dict: overwrite in place or append. -/
def dictSet : List (String × PyVal) → String → PyVal → List (String × PyVal)
  | [], key, v => [(key, v)]
  | (k, w) :: rest, key, v =>
      if k = key then (key, v) :: rest else (k, w) :: dictSet rest key v

/-- Source-label formatting shared by chat_service.py lines 228-235 and
299-306: labels of the shape `<path> (페이지 <n>)` are rewritten to
`PDF 파일: <basename> (페이지: <n>)`. -/
def parseSourceDisplay (source : String) : String :=
  if strContains source " (페이지 " then
    let parts := source.splitOn " (페이지 "
    let file_path := parts.headD ""
    let page := (parts.getD 1 "").replace ")" ""
    let file_name :=
      if strContains file_path "/" then (file_path.splitOn "/").getLastD ""
      else file_path
    "PDF 파일: " ++ file_name ++ " (페이지: " ++ page ++ ")"
  else source

/-- The `default_sources` construction, identical in the text-response
path (chat_service.py lines 223-263) and the error handler (lines
294-334): map each source label through the display rewrite; when that
yields nothing but grounding context exists, cite the first relevant
document (every stored chunk carries `source`, `file` and `page`). -/
def buildDefaultSources (sources : List String) (context : String)
    (relevant_docs : List Doc) : List PyVal :=
  let ds := sources.map
    (fun s => PyVal.dict [("source", .str (parseSourceDisplay s)), ("contents", .list [])])
  if ds.isEmpty ∧ context ≠ "" then
    match relevant_docs with
    | [] => ds
    | d :: _ =>
        let file_name :=
          if strContains d.file "/" then (d.file.splitOn "/").getLastD "" else d.file
        let source_display :=
          "PDF 파일: " ++ file_name ++ " (페이지: " ++ toString d.page ++ ")"
        [PyVal.dict [("source", .str source_display),
                     ("contents", .list [PyVal.str "관련 문서 내용"])]]
  else ds

/-- The JSON-response branch of `process_message` (chat_service.py lines
161-215), with `json.loads` as the oracle `jsonLoads` (`none` =
`JSONDecodeError`).  Returns `some obj` when the branch returns the
parsed object to the caller (the response text parses to an object with
an `"answer"` key, after at most one level of nested-JSON repair), and
`none` when control falls through to the plain-text path. -/
def jsonResponsePath
    (jsonLoads : String → Option (List (String × PyVal)))
    (response : String) : Option (List (String × PyVal)) :=
  if pyStartsWith (pyStrip response) "\x7b" then
    let current_response :=
      if strContains response "\"answer\": \"\x7b" then
        match jsonLoads response with
        | some outer_json =>
            match dictGet outer_json "answer" with
            | some (PyVal.str inner_str) =>
                if pyStartsWith (pyStrip inner_str) "\x7b" ∧ pyEndsWith (pyStrip inner_str) "\x7d" then
                  match jsonLoads inner_str with
                  | some inner_json =>
                      if (dictGet inner_json "answer").isSome then inner_str else response
                  | none => response
                else response
            | _ => response
        | none => response
      else response
    match jsonLoads current_response with
    | some json_response =>
        if (dictGet json_response "answer").isSome then some json_response else none
    | none => none
  else none

/-- Embedding of `ChatService.process_message` (chat_service.py lines 82-344).
Oracles: `jsonLoads` for `json.loads`; `gen` for `_generate_response`
as a function of the grounding context (it is a total function — every
exception inside it, including the tuple-unpacking failure of the
adapter call, is caught there); `costInfo` for the cost summary
attached when `COST_DEBUG` is set; `inject = some e` injects an
unexpected exception (message `e`) into the response-processing region
of the outer `try` (after the context and source lists are bound — the
code before that point is covered by the inner `except`), exercising
the top-level handler of lines 279-344.

Flow: blank message → fixed `{"response": ..., "sources": []}` with no
state change; otherwise ensure the session, append the user turn,
attempt retrieval (always `AttributeError`, caught), build context and
sources, generate, then either return the parsed JSON object, or wrap
the text with `default_sources`; the handler appends the fallback
apology and returns `{"answer", "sources", "error"}`. -/
def ChatService.process_message
    (jsonLoads : String → Option (List (String × PyVal)))
    (gen : String → String × TokenUsage)
    (costDebug : Bool) (costInfo : PyVal) (inject : Option String)
    (st : ChatState) (user_message session_id : String) : PyVal × ChatState :=
  if pyStrip user_message = "" then
    (PyVal.dict [("response", .str emptyMessageReply), ("sources", .list [])], st)
  else
    let cs0 :=
      if (lookupSession st.conversations session_id).isSome then st.conversations
      else setSession st.conversations session_id []
    let cs1 := appendTurn cs0 session_id ⟨"user", .str user_message⟩
    let relevant_docs := (retrievalStep ⟨0, 0, ""⟩).1
    let context :=
      if relevant_docs.isEmpty then ""
      else String.intercalate "\n\n" (relevant_docs.map (·.content))
    let sources :=
      if relevant_docs.isEmpty then [] else relevant_docs.map (·.source)
    match inject with
    | some e =>
        let cs2 := appendTurn cs1 session_id ⟨"assistant", .str fallback_response⟩
        let ds := buildDefaultSources sources context relevant_docs
        (PyVal.dict [("answer", .str fallback_response), ("sources", .list ds),
                     ("error", .str e)], ⟨cs2⟩)
    | none =>
        let response := (gen context).1
        match jsonResponsePath jsonLoads response with
        | some json_response =>
            let cs2 := appendTurn cs1 session_id
              ⟨"assistant", (dictGet json_response "answer").getD (.str "")⟩
            let response_data :=
              if costDebug then dictSet json_response "_debug_cost" costInfo
              else json_response
            (PyVal.dict response_data, ⟨cs2⟩)
        | none =>
            let cs2 := appendTurn cs1 session_id ⟨"assistant", .str response⟩
            let ds := buildDefaultSources sources context relevant_docs
            let base := [("answer", PyVal.str response), ("sources", PyVal.list ds)]
            let response_data :=
              if costDebug then dictSet base "_debug_cost" costInfo else base
            (PyVal.dict response_data, ⟨cs2⟩)

/-! ### Helper lemmas about the vector arithmetic -/

theorem sumSq_nonneg (v : List ℝ) : 0 ≤ sumSq v := by
  induction v with
  | nil => simp [sumSq]
  | cons x xs ih =>
      simp only [sumSq, List.map_cons, List.sum_cons] at *
      nlinarith [mul_self_nonneg x]

theorem sumSq_pos_of_mem {v : List ℝ} {x : ℝ} (hx : x ∈ v) (hne : x ≠ 0) :
    0 < sumSq v := by
  induction v with
  | nil => cases hx
  | cons y ys ih =>
      rcases List.mem_cons.mp hx with h | h
      · subst h
        have hxx : 0 < x * x := mul_self_pos.mpr hne
        have hys := sumSq_nonneg ys
        simp only [sumSq, List.map_cons, List.sum_cons]
        simp only [sumSq] at hys
        linarith
      · have hys := ih h
        have hyy := mul_self_nonneg y
        simp only [sumSq, List.map_cons, List.sum_cons]
        simp only [sumSq] at hys
        linarith

/-- Cauchy–Schwarz for lists: the square of the (truncating) dot product
is bounded by the product of the sums of squares. -/
theorem listDot_sq_le (a b : List ℝ) :
    ((List.zipWith (· * ·) a b).sum) ^ 2 ≤ sumSq a * sumSq b := by
  induction a generalizing b with
  | nil => simp [sumSq]
  | cons x xs ih =>
    cases b with
    | nil => simp [sumSq]
    | cons y ys =>
        have h := ih ys
        have h1 := sumSq_nonneg xs
        have h2 := sumSq_nonneg ys
        set D := (List.zipWith (· * ·) xs ys).sum with hD
        set S1 := sumSq xs with hS1
        set S2 := sumSq ys with hS2
        have expand1 : (List.zipWith (· * ·) (x :: xs) (y :: ys)).sum = x * y + D := by
          simp [hD]
        have expand2 : sumSq (x :: xs) = x * x + S1 := by
          simp only [sumSq, List.map_cons, List.sum_cons, hS1]
        have expand3 : sumSq (y :: ys) = y * y + S2 := by
          simp only [sumSq, List.map_cons, List.sum_cons, hS2]
        rw [expand1, expand2, expand3]
        rcases eq_or_lt_of_le h1 with hz | hp
        · have hDsq : D ^ 2 = 0 :=
            le_antisymm (by nlinarith) (sq_nonneg D)
          have hD0 : D = 0 := by
            have := sq_eq_zero_iff.mp hDsq
            exact this
          rw [hD0, ← hz]
          nlinarith [mul_nonneg (mul_self_nonneg x) h2]
        · nlinarith [sq_nonneg (x * D - y * S1),
            mul_le_mul_of_nonneg_left h (sq_nonneg x),
            mul_le_mul_of_nonneg_left h hp.le, sq_nonneg (x * y)]

theorem zipWith_mul_self (v : List ℝ) :
    List.zipWith (· * ·) v v = v.map (fun a => a * a) := by
  induction v with
  | nil => rfl
  | cons x xs ih => simp [ih]

/-! ### Helper lemmas about the session map -/

theorem lookupSession_setSession_self (cs : List (String × List Turn))
    (sid : String) (h : List Turn) :
    lookupSession (setSession cs sid h) sid = some h := by
  induction cs with
  | nil => simp [setSession, lookupSession]
  | cons kv rest ih =>
      by_cases hk : kv.1 = sid
      · simp [setSession, hk, lookupSession]
      · simp [setSession, hk, lookupSession, ih]

theorem setSession_keys (cs : List (String × List Turn)) (sid : String)
    (h : List Turn) (hmem : (lookupSession cs sid).isSome) :
    (setSession cs sid h).map Prod.fst = cs.map Prod.fst := by
  induction cs with
  | nil => simp [lookupSession] at hmem
  | cons kv rest ih =>
      by_cases hk : kv.1 = sid
      · simp [setSession, hk]
      · simp [lookupSession, hk] at hmem
        simp [setSession, hk, ih hmem]

theorem setSession_setSession (cs : List (String × List Turn)) (sid : String)
    (a b : List Turn) :
    setSession (setSession cs sid a) sid b = setSession cs sid b := by
  induction cs with
  | nil => simp [setSession]
  | cons kv rest ih =>
      by_cases hk : kv.1 = sid
      · simp [setSession, hk]
      · simp [setSession, hk, ih]

theorem lookup_appendTurn (cs : List (String × List Turn)) (sid : String)
    (t : Turn) :
    lookupSession (appendTurn cs sid t) sid
      = some ((lookupSession cs sid).getD [] ++ [t]) :=
  lookupSession_setSession_self cs sid _

/-- Evaluation of `retrievalStep`: it always lands in the `AttributeError` branch. -/
theorem retrievalStep_eq (u : TokenUsage) : retrievalStep u = ([], u) := rfl

/-! ### C1 -/

/-- C1: after any `store_embeddings` call the embedding list and the
chunk list have equal length, even when the supplied embedding list's
length differs from the current chunk count. -/
theorem C1_store_embeddings_length_invariant (s : DocumentStore)
    (embeddings : List (List ℝ)) :
    ((s.store_embeddings embeddings).embeddings).length
      = ((s.store_embeddings embeddings).documents).length := by
  unfold DocumentStore.store_embeddings
  by_cases h : embeddings.length = s.documents.length
  · simp [h]
  · simp [h, List.length_take]

/-! ### C6 -/

/-- C6 counterexample: `store_embeddings` with one embedding on a
two-chunk store truncates the chunk list itself, so document chunks are
not left unchanged on a mismatched call. -/
theorem C6_counterexample :
    (DocumentStore.store_embeddings
        ⟨[⟨"a", "s1", "f", 1⟩, ⟨"b", "s2", "f", 2⟩], [[1], [1]]⟩
        [[1]]).documents
      ≠ [⟨"a", "s1", "f", 1⟩, ⟨"b", "s2", "f", 2⟩] := by
  have h : (DocumentStore.store_embeddings
      ⟨[⟨"a", "s1", "f", 1⟩, ⟨"b", "s2", "f", 2⟩], [[1], [1]]⟩
      [[1]]).documents = [⟨"a", "s1", "f", 1⟩] := rfl
  rw [h]
  simp

/-- C6 (amended): `store_embeddings` truncates the longer of the two
lists to the shorter length — when the embedding list is at least as
long as the chunk list the chunks are unchanged and the embeddings are
cut to the chunk count, but when it is shorter the chunk list itself is
cut to the embedding count (chunks are dropped). -/
theorem C6_store_embeddings_truncation (s : DocumentStore)
    (es : List (List ℝ)) :
    (s.documents.length ≤ es.length →
        (s.store_embeddings es).documents = s.documents ∧
        (s.store_embeddings es).embeddings = es.take s.documents.length) ∧
    (es.length < s.documents.length →
        (s.store_embeddings es).documents = s.documents.take es.length ∧
        (s.store_embeddings es).embeddings = es) := by
  constructor
  · intro hle
    unfold DocumentStore.store_embeddings
    by_cases h : es.length = s.documents.length
    · simp [h, List.take_of_length_le (le_of_eq h.symm)]
    · have hlt : s.documents.length < es.length :=
        lt_of_le_of_ne hle (fun c => h c.symm)
      have hmin : min es.length s.documents.length = s.documents.length :=
        min_eq_right hlt.le
      simp [h, hmin, List.take_length]
  · intro hlt
    have h : ¬ es.length = s.documents.length := ne_of_lt hlt
    have hmin : min es.length s.documents.length = es.length :=
      min_eq_left hlt.le
    unfold DocumentStore.store_embeddings
    simp [h, hmin, List.take_length]

/-- C6 witness: the truncation law evaluated at a two-chunk store and a
single embedding. -/
theorem C6_store_embeddings_truncation_witness :
    ([[(1 : ℝ)]].length < ([⟨"a", "s1", "f", 1⟩, ⟨"b", "s2", "f", 2⟩] : List Doc).length) ∧
    (DocumentStore.store_embeddings
        ⟨[⟨"a", "s1", "f", 1⟩, ⟨"b", "s2", "f", 2⟩], [[1], [1]]⟩ [[1]]).documents
      = [⟨"a", "s1", "f", 1⟩, ⟨"b", "s2", "f", 2⟩].take [[(1 : ℝ)]].length ∧
    (DocumentStore.store_embeddings
        ⟨[⟨"a", "s1", "f", 1⟩, ⟨"b", "s2", "f", 2⟩], [[1], [1]]⟩ [[1]]).embeddings
      = [[(1 : ℝ)]] :=
  ⟨by simp,
    (C6_store_embeddings_truncation
      ⟨[⟨"a", "s1", "f", 1⟩, ⟨"b", "s2", "f", 2⟩], [[1], [1]]⟩ [[1]]).2 (by simp)⟩

/-! ### C10 -/

/-- C10: `reset_conversation` replaces an existing session's history
with the empty sequence while keeping the session's key in the map, is
idempotent, and is a non-raising no-op on a never-seen session id. -/
theorem C10_reset_conversation (st : ChatState) (sid : String) :
    ((lookupSession st.conversations sid).isSome →
        lookupSession (ChatService.reset_conversation st sid).conversations sid
          = some [] ∧
        (ChatService.reset_conversation st sid).conversations.map Prod.fst
          = st.conversations.map Prod.fst) ∧
    ChatService.reset_conversation (ChatService.reset_conversation st sid) sid
      = ChatService.reset_conversation st sid ∧
    (lookupSession st.conversations sid = none →
        ChatService.reset_conversation st sid = st) := by
  refine ⟨?_, ?_, ?_⟩
  · intro hmem
    unfold ChatService.reset_conversation
    rw [if_pos hmem]
    exact ⟨lookupSession_setSession_self _ _ _, setSession_keys _ _ _ hmem⟩
  · by_cases hmem : (lookupSession st.conversations sid).isSome
    · unfold ChatService.reset_conversation
      rw [if_pos hmem]
      have h1 : lookupSession (setSession st.conversations sid []) sid = some [] :=
        lookupSession_setSession_self _ _ _
      simp only [h1, Option.isSome_some, if_pos]
      simp [setSession_setSession]
    · unfold ChatService.reset_conversation
      rw [if_neg hmem, if_neg hmem]
  · intro hnone
    unfold ChatService.reset_conversation
    rw [if_neg (by simp [hnone])]

/-- C10 witness: reset on a one-session state and on an unknown id. -/
theorem C10_reset_conversation_witness :
    ((lookupSession [("s", [⟨"user", PyVal.str "hi"⟩])] "s").isSome ∧
      lookupSession (ChatService.reset_conversation
        ⟨[("s", [⟨"user", PyVal.str "hi"⟩])]⟩ "s").conversations "s" = some []) ∧
    (lookupSession [("s", [⟨"user", PyVal.str "hi"⟩])] "t" = none ∧
      ChatService.reset_conversation ⟨[("s", [⟨"user", PyVal.str "hi"⟩])]⟩ "t"
        = ⟨[("s", [⟨"user", PyVal.str "hi"⟩])]⟩) :=
  ⟨⟨rfl, ((C10_reset_conversation ⟨[("s", [⟨"user", PyVal.str "hi"⟩])]⟩ "s").1 rfl).1⟩,
   ⟨rfl, (C10_reset_conversation ⟨[("s", [⟨"user", PyVal.str "hi"⟩])]⟩ "t").2.2 rfl⟩⟩

/-! ### C3 -/

/-- C3 counterexample: on the empty message the returned dictionary is
keyed `"response"`, not `"answer"`, so the reply is not
`{answer: ..., sources: []}` as claimed. -/
theorem C3_counterexample :
    (ChatService.process_message (fun _ => none)
        (fun _ => ("", ⟨0, 0, ""⟩)) false (PyVal.list []) none ⟨[]⟩ "" "s").1
      ≠ PyVal.dict [("answer", PyVal.str emptyMessageReply),
                    ("sources", PyVal.list [])] := by
  have h : (ChatService.process_message (fun _ => none)
      (fun _ => ("", ⟨0, 0, ""⟩)) false (PyVal.list []) none ⟨[]⟩ "" "s").1
      = PyVal.dict [("response", PyVal.str emptyMessageReply),
                    ("sources", PyVal.list [])] := by
    unfold ChatService.process_message
    rw [if_pos (show pyStrip "" = "" from by decide)]
  rw [h]
  simp only [ne_eq, PyVal.dict.injEq, List.cons.injEq, Prod.mk.injEq, not_and]
  intro h1
  exact absurd h1.1 (by decide)

/-- C3 (amended): an empty or whitespace-only message yields the fixed
apology under the key `"response"` (not `"answer"`) with empty sources,
and leaves the whole service state — in particular every session
history — unchanged, consulting neither the retriever nor the LLM. -/
theorem C3_blank_message (jsonLoads : String → Option (List (String × PyVal)))
    (gen : String → String × TokenUsage) (costDebug : Bool) (costInfo : PyVal)
    (inject : Option String) (st : ChatState) (user_message session_id : String)
    (hmsg : pyStrip user_message = "") :
    ChatService.process_message jsonLoads gen costDebug costInfo inject
        st user_message session_id
      = (PyVal.dict [("response", PyVal.str emptyMessageReply),
                     ("sources", PyVal.list [])], st) := by
  unfold ChatService.process_message
  rw [if_pos hmsg]

/-- C3 witness: the blank-message law evaluated at the empty message. -/
theorem C3_blank_message_witness :
    pyStrip "" = "" ∧
    ChatService.process_message (fun _ => none) (fun _ => ("", ⟨0, 0, ""⟩))
        false (PyVal.list []) none ⟨[]⟩ "" "s"
      = (PyVal.dict [("response", PyVal.str emptyMessageReply),
                     ("sources", PyVal.list [])], ⟨[]⟩) :=
  ⟨by decide, C3_blank_message (fun _ => none) (fun _ => ("", ⟨0, 0, ""⟩))
    false (PyVal.list []) none ⟨[]⟩ "" "s" (by decide)⟩

theorem lookup_ensure (cs : List (String × List Turn)) (sid : String) :
    (lookupSession (if (lookupSession cs sid).isSome then cs
        else setSession cs sid []) sid).getD []
      = (lookupSession cs sid).getD [] := by
  by_cases hs : (lookupSession cs sid).isSome
  · rw [if_pos hs]
  · rw [if_neg hs, lookupSession_setSession_self]
    rw [Option.not_isSome_iff_eq_none] at hs
    rw [hs]
    rfl

/-! ### C2 -/

/-- C2: for a non-blank message, whenever an unexpected exception
reaches the top-level handler of `process_message`, the fixed fallback
apology is appended as the assistant turn of that session (after the
user turn) and the call returns
`{answer: apology, sources: [], error: <message>}`. -/
theorem C2_error_handler
    (jsonLoads : String → Option (List (String × PyVal)))
    (gen : String → String × TokenUsage) (costDebug : Bool) (costInfo : PyVal)
    (st : ChatState) (user_message session_id e : String)
    (hmsg : pyStrip user_message ≠ "") :
    (ChatService.process_message jsonLoads gen costDebug costInfo (some e)
        st user_message session_id).1
      = PyVal.dict [("answer", PyVal.str fallback_response),
                    ("sources", PyVal.list []), ("error", PyVal.str e)] ∧
    lookupSession (ChatService.process_message jsonLoads gen costDebug costInfo
        (some e) st user_message session_id).2.conversations session_id
      = some ((lookupSession st.conversations session_id).getD []
          ++ [⟨"user", PyVal.str user_message⟩,
              ⟨"assistant", PyVal.str fallback_response⟩]) := by
  unfold ChatService.process_message
  rw [if_neg hmsg]
  simp only [retrievalStep_eq, List.isEmpty_nil, ite_true, List.map_nil]
  refine ⟨by simp [buildDefaultSources], ?_⟩
  simp only [lookup_appendTurn, Option.getD_some, lookup_ensure]
  simp [List.append_assoc]

/-- C2 witness: the error handler evaluated on a concrete session. -/
theorem C2_error_handler_witness :
    pyStrip "질문" ≠ "" ∧
    ((ChatService.process_message (fun _ => none)
        (fun _ => ("x", ⟨0, 0, ""⟩)) false (PyVal.list []) (some "boom")
        ⟨[]⟩ "질문" "s").1
      = PyVal.dict [("answer", PyVal.str fallback_response),
                    ("sources", PyVal.list []), ("error", PyVal.str "boom")] ∧
    lookupSession (ChatService.process_message (fun _ => none)
        (fun _ => ("x", ⟨0, 0, ""⟩)) false (PyVal.list []) (some "boom")
        ⟨[]⟩ "질문" "s").2.conversations "s"
      = some ((lookupSession ([] : List (String × List Turn)) "s").getD []
          ++ [⟨"user", PyVal.str "질문"⟩,
              ⟨"assistant", PyVal.str fallback_response⟩])) :=
  ⟨by decide,
   C2_error_handler (fun _ => none) (fun _ => ("x", ⟨0, 0, ""⟩)) false
     (PyVal.list []) ⟨[]⟩ "질문" "s" "boom" (by decide)⟩

/-! ### C7 -/

/-- C7: the `Retriever` class defines no `retrieve_with_usage` method,
so the retrieval step of `process_message` always raises
`AttributeError` (caught internally), `relevant_docs` is always empty,
and the reply depends on `_generate_response` only through its value at
the empty grounding context — no answer from this entry point is ever
grounded in similarity-searched chunks. -/
theorem C7_retrieval_always_fails :
    "retrieve_with_usage" ∉ retrieverMethodNames ∧
    (∀ u : TokenUsage, retrievalStep u = ([], u)) ∧
    (∀ (jsonLoads : String → Option (List (String × PyVal)))
        (g₁ g₂ : String → String × TokenUsage) (costDebug : Bool)
        (costInfo : PyVal) (inject : Option String) (st : ChatState)
        (user_message session_id : String),
        g₁ "" = g₂ "" →
        ChatService.process_message jsonLoads g₁ costDebug costInfo inject
            st user_message session_id
          = ChatService.process_message jsonLoads g₂ costDebug costInfo inject
            st user_message session_id) := by
  refine ⟨by decide, fun u => rfl, ?_⟩
  intro jsonLoads g₁ g₂ costDebug costInfo inject st m sid h
  by_cases hb : pyStrip m = ""
  · unfold ChatService.process_message
    rw [if_pos hb, if_pos hb]
  · unfold ChatService.process_message
    rw [if_neg hb, if_neg hb]
    simp only [retrievalStep_eq, List.isEmpty_nil, ite_true]
    rw [h]

/-- C7 witness: two generators that agree on the empty context produce
identical replies. -/
theorem C7_retrieval_always_fails_witness :
    ((fun s => (s, (⟨0, 0, ""⟩ : TokenUsage))) "")
      = ((fun _ => ("", (⟨0, 0, ""⟩ : TokenUsage))) "") ∧
    ChatService.process_message (fun _ => none)
        (fun s => (s, ⟨0, 0, ""⟩)) false (PyVal.list []) none ⟨[]⟩ "hi" "s"
      = ChatService.process_message (fun _ => none)
        (fun _ => ("", ⟨0, 0, ""⟩)) false (PyVal.list []) none ⟨[]⟩ "hi" "s" :=
  ⟨rfl,
   C7_retrieval_always_fails.2.2 (fun _ => none)
     (fun s => (s, ⟨0, 0, ""⟩)) (fun _ => ("", ⟨0, 0, ""⟩)) false
     (PyVal.list []) none ⟨[]⟩ "hi" "s" rfl⟩

/-! ### C8 -/

theorem genLoop_allThrottle (cfg : BedrockConfig) (inv : Nat → InvokeOutcome)
    (jsonPost : String → String) (hist : List Turn)
    (hthr : ∀ n, ∃ code msg, inv n = .clientError code msg ∧ code ∈ retryableCodes)
    (hfb : cfg.fallback_model_id = cfg.model_id) :
    ∀ k r c tf, k = cfg.max_retries + 1 - r →
      genLoop cfg inv jsonPost hist c r cfg.model_id tf
        = .ok (degradedMessage hist) := by
  intro k
  induction k with
  | zero =>
      intro r c tf hk
      have hr : ¬ r ≤ cfg.max_retries := by omega
      rw [genLoop, dif_neg hr]
  | succ n ih =>
      intro r c tf hk
      have hr : r ≤ cfg.max_retries := by omega
      obtain ⟨code, msg, hEq, hMem⟩ := hthr c
      rw [genLoop, dif_pos hr, hEq]
      simp only [if_pos hMem]
      have hcond : ¬(¬tf = true ∧ cfg.model_id ≠ cfg.fallback_model_id) := by
        intro hc
        exact hc.2 hfb.symm
      rw [dif_neg hcond]
      exact ih (r + 1) (c + 1) tf (by omega)

/-- C8: when every invocation attempt fails with a throttling-class
`ClientError` and the fallback model is not distinct from the primary,
`generate_response` never raises — after exhausting the retries it
returns the fixed degraded-service message. -/
theorem C8_throttle_exhaustion (cfg : BedrockConfig)
    (inv : Nat → InvokeOutcome) (jsonPost : String → String)
    (hist : List Turn)
    (hthr : ∀ n, ∃ code msg, inv n = .clientError code msg ∧ code ∈ retryableCodes)
    (hfb : cfg.fallback_model_id = cfg.model_id) :
    BedrockClient.generate_response cfg inv jsonPost true hist
      = .ok (degradedMessage hist) ∧
    ∀ m, BedrockClient.generate_response cfg inv jsonPost true hist
      ≠ .raised m := by
  have h : BedrockClient.generate_response cfg inv jsonPost true hist
      = .ok (degradedMessage hist) := by
    unfold BedrockClient.generate_response
    simp only [Bool.not_true, Bool.false_eq_true, not_false_eq_true,
      not_true_eq_false, if_false, ite_false]
    exact genLoop_allThrottle cfg inv jsonPost hist hthr hfb _ 0 0 false rfl
  exact ⟨h, fun m hm => by rw [h] at hm; cases hm⟩

/-- C8 witness: a client whose fallback equals its primary model,
throttled on every call, replies with the degraded-service string. -/
theorem C8_throttle_exhaustion_witness :
    (∀ n : Nat, ∃ code msg,
        (fun _ : Nat => InvokeOutcome.clientError "ThrottlingException" "t") n
          = .clientError code msg ∧ code ∈ retryableCodes) ∧
    (⟨"anthropic.claude-instant-v1", "anthropic.claude-instant-v1", 2⟩ :
        BedrockConfig).fallback_model_id
      = (⟨"anthropic.claude-instant-v1", "anthropic.claude-instant-v1", 2⟩ :
        BedrockConfig).model_id ∧
    BedrockClient.generate_response
        ⟨"anthropic.claude-instant-v1", "anthropic.claude-instant-v1", 2⟩
        (fun _ => InvokeOutcome.clientError "ThrottlingException" "t")
        (fun s => s) true []
      = .ok (degradedMessage []) :=
  ⟨fun n => ⟨"ThrottlingException", "t", rfl, by decide⟩, rfl,
   (C8_throttle_exhaustion
      ⟨"anthropic.claude-instant-v1", "anthropic.claude-instant-v1", 2⟩
      (fun _ => InvokeOutcome.clientError "ThrottlingException" "t")
      (fun s => s) []
      (fun n => ⟨"ThrottlingException", "t", rfl, by decide⟩) rfl).1⟩

/-! ### C9 -/

/-- C9: cosine similarity — computed over the length-truncated vectors,
and `0` whenever the product of magnitudes is `0` — always lies in
`[-1, 1]`, and a vector with a non-zero entry has similarity `1` with
itself. -/
theorem C9_cosine_properties :
    (∀ a b : List ℝ, -1 ≤ cosineSimilarity a b ∧ cosineSimilarity a b ≤ 1) ∧
    (∀ a b : List ℝ,
        Real.sqrt (sumSq (truncMin a b).1) * Real.sqrt (sumSq (truncMin a b).2) = 0 →
        cosineSimilarity a b = 0) ∧
    (∀ v : List ℝ, (∃ x ∈ v, x ≠ 0) → cosineSimilarity v v = 1) := by
  refine ⟨?_, ?_, ?_⟩
  · intro a b
    simp only [cosineSimilarity]
    set p := truncMin a b with hp
    set D := (List.zipWith (· * ·) p.1 p.2).sum with hDdef
    set m1 := Real.sqrt (sumSq p.1) with hm1
    set m2 := Real.sqrt (sumSq p.2) with hm2
    by_cases h : m1 * m2 = 0
    · rw [if_pos h]
      norm_num
    · rw [if_neg h]
      have hm1n : 0 ≤ m1 := Real.sqrt_nonneg _
      have hm2n : 0 ≤ m2 := Real.sqrt_nonneg _
      have hpos : 0 < m1 * m2 := lt_of_le_of_ne (mul_nonneg hm1n hm2n) (Ne.symm h)
      have hcs : D ^ 2 ≤ (m1 * m2) ^ 2 := by
        have h1 : m1 ^ 2 = sumSq p.1 := Real.sq_sqrt (sumSq_nonneg _)
        have h2 : m2 ^ 2 = sumSq p.2 := Real.sq_sqrt (sumSq_nonneg _)
        calc D ^ 2 ≤ sumSq p.1 * sumSq p.2 := listDot_sq_le _ _
          _ = (m1 * m2) ^ 2 := by rw [mul_pow, h1, h2]
      have habs : |D| ≤ m1 * m2 := by
        calc |D| = Real.sqrt (D ^ 2) := (Real.sqrt_sq_eq_abs D).symm
          _ ≤ Real.sqrt ((m1 * m2) ^ 2) := Real.sqrt_le_sqrt hcs
          _ = |m1 * m2| := Real.sqrt_sq_eq_abs _
          _ = m1 * m2 := abs_of_pos hpos
      constructor
      · rw [le_div_iff₀ hpos]
        have h1 := neg_abs_le D
        linarith
      · rw [div_le_one hpos]
        exact le_trans (le_abs_self D) habs
  · intro a b h
    simp only [cosineSimilarity]
    rw [if_pos h]
  · intro v hv
    obtain ⟨x, hx, hne⟩ := hv
    have hpos : 0 < sumSq v := sumSq_pos_of_mem hx hne
    simp only [cosineSimilarity]
    have ht : truncMin v v = (v, v) := by simp [truncMin]
    rw [ht]
    simp only []
    rw [zipWith_mul_self]
    have hs : Real.sqrt (sumSq v) * Real.sqrt (sumSq v) = sumSq v :=
      Real.mul_self_sqrt (sumSq_nonneg v)
    rw [hs, if_neg (ne_of_gt hpos)]
    show sumSq v / sumSq v = 1
    exact div_self (ne_of_gt hpos)

/-- C9 witness: the self-similarity of `[1]` is `1` and a zero-magnitude
pairing gives `0`. -/
theorem C9_cosine_properties_witness :
    (∃ x ∈ [(1 : ℝ)], x ≠ 0) ∧
    cosineSimilarity [(1 : ℝ)] [(1 : ℝ)] = 1 ∧
    (Real.sqrt (sumSq (truncMin [(1 : ℝ)] [(0 : ℝ)]).1) *
        Real.sqrt (sumSq (truncMin [(1 : ℝ)] [(0 : ℝ)]).2) = 0 ∧
      cosineSimilarity [(1 : ℝ)] [(0 : ℝ)] = 0) := by
  have hz : Real.sqrt (sumSq (truncMin [(1 : ℝ)] [(0 : ℝ)]).1) *
      Real.sqrt (sumSq (truncMin [(1 : ℝ)] [(0 : ℝ)]).2) = 0 := by
    have ht : truncMin [(1 : ℝ)] [(0 : ℝ)] = ([(1 : ℝ)], [(0 : ℝ)]) := by
      simp [truncMin]
    rw [ht]
    simp [sumSq]
  exact ⟨⟨1, by simp⟩,
    C9_cosine_properties.2.2 [(1 : ℝ)] ⟨1, by simp⟩,
    hz, C9_cosine_properties.2.1 [(1 : ℝ)] [(0 : ℝ)] hz⟩

/-! ### C5 -/

theorem search_similar_neg_topk_length (s : DocumentStore) (q : List ℝ) (k : Int)
    (hcond : ¬(s.embeddings = [] ∨ s.documents = [])) (hq : ¬ q = [])
    (hk0 : ¬ (0 : Int) ≤ k) (hkn : (-k).toNat ≤ s.embeddings.length)
    (hled : s.embeddings.length ≤ s.documents.length) :
    (s.search_similar q k).length = s.embeddings.length - (-k).toNat := by
  simp only [DocumentStore.search_similar]
  rw [if_neg hcond, if_neg hq]
  set sims := s.embeddings.map (fun e => cosineSimilarity q e) with hsims
  have hlen : sims.length = s.embeddings.length := by
    rw [hsims, List.length_map]
  have hsne : ¬ sims = [] := by
    intro hc
    apply hcond
    left
    rw [← List.length_eq_zero]
    rw [← hlen, hc]
    rfl
  rw [if_neg hsne]
  have hmin : min k (sims.length : Int) = k := min_eq_left (by omega)
  rw [hmin]
  set sorted := (List.range sims.length).mergeSort
    (fun i j => decide (sims.getD j 0 ≤ sims.getD i 0)) with hsorted
  have hslen : sorted.length = sims.length := by
    rw [hsorted, List.length_mergeSort, List.length_range]
  have hmem : ∀ i ∈ sorted, i < s.documents.length := by
    intro i hi
    rw [hsorted] at hi
    have h1 := List.mem_range.mp (List.mem_mergeSort.mp hi)
    omega
  have hps : pySliceTo sorted k = sorted.take (sorted.length - (-k).toNat) := by
    unfold pySliceTo
    rw [if_neg hk0]
    congr 1
    omega
  rw [hps]
  have hall : ((sorted.take (sorted.length - (-k).toNat)).all
      (fun i => decide (i < s.documents.length))) = true := by
    rw [List.all_eq_true]
    intro i hi
    simpa using hmem i (List.mem_of_mem_take hi)
  rw [if_pos hall]
  rw [List.length_map, List.length_take]
  omega

/-- C5 counterexample: on a store with two embedded chunks,
`search_similar` with `top_k = -1` returns one document (Python slice
semantics keep all but the last ranked index), not the empty sequence
the claim requires for `top_k <= 0`. -/
theorem C5_counterexample :
    DocumentStore.search_similar
        ⟨[⟨"a", "s1", "f", 1⟩, ⟨"b", "s2", "f", 2⟩], [[1], [0]]⟩ [1] (-1)
      ≠ [] := by
  have h := search_similar_neg_topk_length
    ⟨[⟨"a", "s1", "f", 1⟩, ⟨"b", "s2", "f", 2⟩], [[1], [0]]⟩ [1] (-1)
    (by simp) (by simp) (by decide) (by decide) (by decide)
  intro hc
  rw [hc] at h
  simp at h

/-- C5 (amended): `search_similar` returns the empty sequence when no
embeddings are stored, when no documents are stored, when the query
vector is empty, or when `top_k = 0`; for negative `top_k` it is empty
only once `top_k ≤ -(number of stored embeddings)` — strictly between,
Python's slice semantics keep a non-empty prefix of the ranking. -/
theorem C5_search_similar_empty_cases (s : DocumentStore) (q : List ℝ) (k : Int) :
    (s.embeddings = [] → s.search_similar q k = []) ∧
    (s.documents = [] → s.search_similar q k = []) ∧
    (q = [] → s.search_similar q k = []) ∧
    (k = 0 → s.search_similar q k = []) ∧
    (k ≤ -(s.embeddings.length : Int) → s.search_similar q k = []) := by
  refine ⟨?_, ?_, ?_, ?_, ?_⟩
  · intro h
    simp only [DocumentStore.search_similar]
    rw [if_pos (Or.inl h)]
  · intro h
    simp only [DocumentStore.search_similar]
    rw [if_pos (Or.inr h)]
  · intro h
    simp only [DocumentStore.search_similar]
    by_cases h1 : s.embeddings = [] ∨ s.documents = []
    · rw [if_pos h1]
    · rw [if_neg h1, if_pos h]
  · intro h
    subst h
    simp only [DocumentStore.search_similar]
    by_cases h1 : s.embeddings = [] ∨ s.documents = []
    · rw [if_pos h1]
    · rw [if_neg h1]
      by_cases h2 : q = []
      · rw [if_pos h2]
      · rw [if_neg h2]
        by_cases h3 : s.embeddings.map (fun e => cosineSimilarity q e) = []
        · rw [if_pos h3]
        · rw [if_neg h3]
          have hmin : min (0 : Int)
              ((s.embeddings.map (fun e => cosineSimilarity q e)).length : Int)
              = 0 := min_eq_left (by omega)
          rw [hmin]
          have hps : ∀ l : List Nat, pySliceTo l 0 = [] := by
            intro l
            unfold pySliceTo
            simp
          rw [hps]
          simp
  · intro h
    simp only [DocumentStore.search_similar]
    by_cases h1 : s.embeddings = [] ∨ s.documents = []
    · rw [if_pos h1]
    · rw [if_neg h1]
      by_cases h2 : q = []
      · rw [if_pos h2]
      · rw [if_neg h2]
        by_cases h3 : s.embeddings.map (fun e => cosineSimilarity q e) = []
        · rw [if_pos h3]
        · rw [if_neg h3]
          have hne : s.embeddings ≠ [] := fun hc => h1 (Or.inl hc)
          have hpos : 0 < s.embeddings.length := List.length_pos.mpr hne
          have hlen : (s.embeddings.map (fun e => cosineSimilarity q e)).length
              = s.embeddings.length := List.length_map _ _
          have hk0 : ¬ (0 : Int) ≤ k := by omega
          have hmin : min k
              ((s.embeddings.map (fun e => cosineSimilarity q e)).length : Int)
              = k := min_eq_left (by omega)
          rw [hmin]
          have hps : pySliceTo ((List.range (s.embeddings.map
              (fun e => cosineSimilarity q e)).length).mergeSort
                (fun i j => decide ((s.embeddings.map
                  (fun e => cosineSimilarity q e)).getD j 0
                    ≤ (s.embeddings.map (fun e => cosineSimilarity q e)).getD i 0)))
              k = [] := by
            unfold pySliceTo
            rw [if_neg hk0]
            have : ((List.range (s.embeddings.map
                (fun e => cosineSimilarity q e)).length).mergeSort
                  (fun i j => decide ((s.embeddings.map
                    (fun e => cosineSimilarity q e)).getD j 0
                      ≤ (s.embeddings.map (fun e => cosineSimilarity q e)).getD i 0))).length
                - min (-k).toNat ((List.range (s.embeddings.map
                    (fun e => cosineSimilarity q e)).length).mergeSort
                  (fun i j => decide ((s.embeddings.map
                    (fun e => cosineSimilarity q e)).getD j 0
                      ≤ (s.embeddings.map (fun e => cosineSimilarity q e)).getD i 0))).length
                = 0 := by
              rw [List.length_mergeSort, List.length_range]
              omega
            rw [this]
            simp
          rw [hps]
          simp

/-- C5 witness: the amended empty-result laws evaluated at a concrete
store. -/
theorem C5_search_similar_empty_cases_witness :
    (([] : List Doc) = [] ∧
      DocumentStore.search_similar ⟨[], [[1]]⟩ [1] 2 = []) ∧
    ((0 : Int) = 0 ∧
      DocumentStore.search_similar
        ⟨[⟨"a", "s1", "f", 1⟩], [[1]]⟩ [1] 0 = []) ∧
    ((-2 : Int) ≤ -(([[(1 : ℝ)], [0]] : List (List ℝ)).length : Int) ∧
      DocumentStore.search_similar
        ⟨[⟨"a", "s1", "f", 1⟩, ⟨"b", "s2", "f", 2⟩], [[1], [0]]⟩ [1] (-2) = []) :=
  ⟨⟨rfl, (C5_search_similar_empty_cases ⟨[], [[1]]⟩ [1] 2).2.1 rfl⟩,
   ⟨rfl, (C5_search_similar_empty_cases
      ⟨[⟨"a", "s1", "f", 1⟩], [[1]]⟩ [1] 0).2.2.2.1 rfl⟩,
   ⟨by decide, (C5_search_similar_empty_cases
      ⟨[⟨"a", "s1", "f", 1⟩, ⟨"b", "s2", "f", 2⟩], [[1], [0]]⟩ [1]
      (-2)).2.2.2.2 (by decide)⟩⟩

/-! ### C4 -/

theorem search_similar_of_docs_empty (s : DocumentStore) (q : List ℝ)
    (k : Int) (h : s.documents = []) : s.search_similar q k = [] := by
  simp only [DocumentStore.search_similar]
  rw [if_pos (Or.inr h)]

theorem initEmbeddingsStep_store_empty (rs : RetrieverState)
    (edR : Except Unit (List (List ℝ)))
    (h : rs.document_store.documents = []) :
    ((initEmbeddingsStep rs edR).1).document_store.documents = [] := by
  unfold initEmbeddingsStep
  by_cases hd : rs.documents.isEmpty
  · rw [if_pos hd]
    exact h
  · rw [if_neg hd]
    cases edR with
    | error e => exact h
    | ok embs =>
        cases embs with
        | nil => exact h
        | cons v vs =>
            show (rs.document_store.store_embeddings (v :: vs)).documents = []
            unfold DocumentStore.store_embeddings
            by_cases hl : (v :: vs).length ≠ rs.document_store.documents.length
            · rw [if_pos hl]
              simp [h]
            · rw [if_neg hl]
              exact h

theorem retrieveAfterInit_docs_empty (rs : RetrieverState)
    (edR : Except Unit (List (List ℝ))) (b : Bool)
    (h : rs.document_store.documents = []) :
    (retrieveAfterInit rs edR b).document_store.documents = [] := by
  unfold retrieveAfterInit
  split
  · exact initEmbeddingsStep_store_empty rs edR h
  · exact h

theorem retrieveAfterInit_error (rs : RetrieverState)
    (hrs : rs.initDone = false) :
    (retrieveAfterInit rs (.error ()) true).document_store
      = rs.document_store ∧
    (retrieveAfterInit rs (.error ()) true).initDone = false := by
  unfold retrieveAfterInit
  rw [if_pos (by simp [hrs])]
  unfold initEmbeddingsStep
  by_cases hd : rs.documents.isEmpty
  · rw [if_pos hd]
    exact ⟨rfl, hrs⟩
  · rw [if_neg hd]
    exact ⟨rfl, rfl⟩

/-- C4 counterexample: a retriever over a non-empty store whose
embedding initialization failed (and whose retry fails) still returns
the empty list for a blank query, so the non-empty-sample clause does
not hold for every query string. -/
theorem C4_counterexample :
    ((⟨⟨[⟨"a", "s", "f", 1⟩], []⟩, [⟨"a", "s", "f", 1⟩], false⟩ :
        RetrieverState).document_store.documents ≠ []) ∧
    ((⟨⟨[⟨"a", "s", "f", 1⟩], []⟩, [⟨"a", "s", "f", 1⟩], false⟩ :
        RetrieverState).initDone = false) ∧
    Retriever.retrieve
        ⟨⟨[⟨"a", "s", "f", 1⟩], []⟩, [⟨"a", "s", "f", 1⟩], false⟩
        (.error ()) (.error ()) (fun ds n => ds.take n) "" 3 true = [] := by
  refine ⟨by simp, rfl, ?_⟩
  simp only [Retriever.retrieve]
  rw [if_pos (show pyStrip "" = "" from by decide)]

/-- C4 (amended): with the store empty, `retrieve` returns `[]` for
every query and `top_k`; and for every **non-blank** query (at the
default `top_k = 3`), when embedding initialization has failed and the
one retry also fails but chunks exist, `retrieve` returns a non-empty
sample of at most `top_k` chunks. -/
theorem C4_retrieve_fallback (rs : RetrieverState)
    (edR : Except Unit (List (List ℝ))) (eqR : Except Unit (List ℝ))
    (sampler : List Doc → Nat → List Doc) :
    (∀ query top_k,
        rs.document_store.documents = [] →
        Retriever.retrieve rs edR eqR sampler query top_k true = []) ∧
    (∀ query, pyStrip query ≠ "" → rs.initDone = false → edR = .error () →
        rs.document_store.documents ≠ [] →
        (∀ ds n, n ≤ ds.length → (sampler ds n).length = n) →
        Retriever.retrieve rs edR eqR sampler query 3 true ≠ [] ∧
        (Retriever.retrieve rs edR eqR sampler query 3 true).length ≤ 3) := by
  constructor
  · intro query top_k h
    simp only [Retriever.retrieve]
    by_cases hb : pyStrip query = ""
    · rw [if_pos hb]
    · rw [if_neg hb]
      have hdoc : (retrieveAfterInit rs edR true).document_store.documents = [] :=
        retrieveAfterInit_docs_empty rs edR true h
      by_cases hi : (retrieveAfterInit rs edR true).initDone
      · rw [if_neg (by simp [hi])]
        cases eqR with
        | ok qe => exact search_similar_of_docs_empty _ qe top_k hdoc
        | error u => simp [hdoc]
      · rw [if_pos (by simp [hi])]
        simp [hdoc]
  · intro query hq hflag hedR hdocs hsampler
    subst hedR
    simp only [Retriever.retrieve]
    rw [if_neg hq]
    obtain ⟨hstore, hflag'⟩ := retrieveAfterInit_error rs hflag
    rw [if_pos (by simp [hflag'])]
    have hd : (retrieveAfterInit rs (.error ()) true).document_store.documents
        = rs.document_store.documents := by rw [hstore]
    have hne : ¬((retrieveAfterInit rs (.error ()) true).document_store.documents.isEmpty) := by
      rw [hd]
      simpa [List.isEmpty_iff] using hdocs
    rw [if_pos hne]
    rw [hd]
    have hn : 1 ≤ rs.document_store.documents.length :=
      List.length_pos.mpr hdocs
    have hk : (min (3 : Int) (rs.document_store.documents.length : Int)).toNat
        ≤ rs.document_store.documents.length := by omega
    have hlen := hsampler rs.document_store.documents _ hk
    constructor
    · intro hc
      rw [hc] at hlen
      have h1 : 1 ≤ (min (3 : Int)
          (rs.document_store.documents.length : Int)).toNat := by omega
      simp at hlen
      omega
    · rw [hlen]
      omega

/-- C4 witness: the fallback laws evaluated at concrete retrievers. -/
theorem C4_retrieve_fallback_witness :
    ((⟨⟨[], []⟩, [], false⟩ : RetrieverState).document_store.documents = [] ∧
      Retriever.retrieve ⟨⟨[], []⟩, [], false⟩ (.error ()) (.error ())
        (fun ds n => ds.take n) "질문" 5 true = []) ∧
    (pyStrip "질문" ≠ "" ∧
      Retriever.retrieve
          ⟨⟨[⟨"a", "s", "f", 1⟩], []⟩, [⟨"a", "s", "f", 1⟩], false⟩
          (.error ()) (.error ()) (fun ds n => ds.take n) "질문" 3 true ≠ [] ∧
      (Retriever.retrieve
          ⟨⟨[⟨"a", "s", "f", 1⟩], []⟩, [⟨"a", "s", "f", 1⟩], false⟩
          (.error ()) (.error ()) (fun ds n => ds.take n) "질문" 3 true).length ≤ 3) :=
  ⟨⟨rfl, (C4_retrieve_fallback ⟨⟨[], []⟩, [], false⟩ (.error ()) (.error ())
      (fun ds n => ds.take n)).1 "질문" 5 rfl⟩,
   ⟨by decide, (C4_retrieve_fallback
      ⟨⟨[⟨"a", "s", "f", 1⟩], []⟩, [⟨"a", "s", "f", 1⟩], false⟩
      (.error ()) (.error ()) (fun ds n => ds.take n)).2 "질문" (by decide) rfl rfl
      (by simp) (fun ds n h => by rw [List.length_take]; omega)⟩⟩
